import Mathlib

/-!
Verification of the smart-to-do-task-scheduler scheduling engine.

The engine's core rules are embedded from the repository's scheduler
documentation (`src/unnamed/part_011`, which quotes the MeTTa rules and the
Python scheduler functions verbatim) and from the TypeScript client
(`src/client/src/...`).  Real-number quantities (hours, urgency scores,
weights) are modelled as rationals; Python/JS numbers at the granularity the
claims need are exact on the inputs considered here.
-/

namespace TaskScheduler

/-- Task status values, from the client enum `TaskStatus`
(`src/unnamed/part_002`): `pending`, `in_progress`, `completed`, `overdue`. -/
inductive TStatus where
  | pending
  | in_progress
  | completed
  | overdue
deriving DecidableEq, Repr

/-- The task fields the urgency scorer and conflict resolver consume
(`Task` model: `deadline` timestamp, `priority` integer 1-5, plus the
creation order used to state the documented tie-break).  The deadline is a
timestamp measured in hours so that `deadline - now` is the signed number of
hours until the deadline. -/
structure STask where
  deadline : ℚ
  priority : ℤ
  created : ℕ
deriving DecidableEq, Repr

/-- Embedded from `calculate_urgency_score` (src/unnamed/part_011 lines
242-250): `deadline_urgency = 1 / (1 + time_until_deadline / 24)`,
`priority_urgency = task.priority / 5.0`, combined as
`deadline_urgency * self.deadline_weight + priority_urgency *
self.priority_weight`. -/
def calculate_urgency_score (dw pw : ℚ) (t : STask) (now : ℚ) : ℚ :=
  let time_until_deadline : ℚ := t.deadline - now
  let deadline_urgency : ℚ := 1 / (1 + time_until_deadline / 24)
  let priority_urgency : ℚ := (t.priority : ℚ) / 5
  deadline_urgency * dw + priority_urgency * pw

/-- Default deadline weight, from the initial state
`useState(0.6)` in `SchedulingControls.tsx` line 41. -/
def default_deadline_weight : ℚ := 6 / 10

/-- Default priority weight, from the initial state
`useState(0.4)` in `SchedulingControls.tsx` line 42. -/
def default_priority_weight : ℚ := 4 / 10

/-- Embedded from the MeTTa rule `can-schedule`
(src/unnamed/part_011 lines 222-226, also src/unnamed/part_000 lines
141-147): a task with a dependency can be scheduled when
`(or (task-completed $dependency-id) (task-overdue $dependency-id))`.
The argument is the status of the task's immediate dependency. -/
def can_schedule (depStatus : TStatus) : Bool :=
  depStatus == TStatus.completed || depStatus == TStatus.overdue

/-- Weight state of the scheduling controls
(`SchedulingControls.tsx`): the pair of slider values. -/
structure Weights where
  deadline_weight : ℚ
  priority_weight : ℚ
deriving DecidableEq, Repr

/-- The initial weight state (`useState(0.6)`, `useState(0.4)`). -/
def initialWeights : Weights :=
  ⟨6 / 10, 4 / 10⟩

/-- A user adjustment of one of the two weight sliders. -/
inductive WeightOp where
  | setDeadlineWeight (v : ℚ)
  | setPriorityWeight (v : ℚ)

/-- Embedded from `handleDeadlineWeightChange` / `handlePriorityWeightChange`
(`SchedulingControls.tsx` lines 58-68): adjusting either slider sets the
other weight to `1 -` the adjusted value. -/
def applyWeightOp (_w : Weights) : WeightOp → Weights
  | WeightOp.setDeadlineWeight v => ⟨v, 1 - v⟩
  | WeightOp.setPriorityWeight v => ⟨1 - v, v⟩

/-- Embedded from the MeTTa rule `resolve-time-conflict`
(src/unnamed/part_011 lines 136-143): compute both urgency scores and
`(if (> $urgency1 $urgency2) (bump-task $task2-id $task1-id)
(bump-task $task1-id $task2-id))`.  The result is the pair
(winner of the slot, bumped task). -/
def resolve_time_conflict (dw pw now : ℚ) (t1 t2 : STask) : STask × STask :=
  let urgency1 := calculate_urgency_score dw pw t1 now
  let urgency2 := calculate_urgency_score dw pw t2 now
  if urgency1 > urgency2 then (t1, t2) else (t2, t1)

/-- Embedded from the MeTTa function `optimal-time-slot`
(src/unnamed/part_011 lines 40-45): urgency above 0.8 maps to
"early-morning", above 0.6 to "morning", above 0.4 to "midday", otherwise
"afternoon". -/
def optimal_time_slot (urgency : ℚ) : String :=
  if urgency > 8 / 10 then "early-morning"
  else if urgency > 6 / 10 then "morning"
  else if urgency > 4 / 10 then "midday"
  else "afternoon"

/-- Embedded from `find_optimal_start_time_with_metta`
(src/unnamed/part_011 lines 256-266): the preferred start hour used for the
slot search is 9 when `urgency_score > 0.7`, 10 when `urgency_score > 0.4`,
and 14 otherwise. -/
def preferred_start_hour (urgency_score : ℚ) : ℤ :=
  if urgency_score > 7 / 10 then 9
  else if urgency_score > 4 / 10 then 10
  else 14

/-- Embedded from `sum-task-durations` as used by the MeTTa function
`proportional-time-allocation` (src/unnamed/part_011 lines 199-205). -/
def sum_task_durations (ds : List ℚ) : ℚ :=
  ds.sum

/-- Embedded from the MeTTa function `proportional-time-allocation`
(src/unnamed/part_011 lines 199-205): `$total-required` is the summed
durations, `$allocation-factor` is `(/ $available-time $total-required)`,
and every task is allocated `duration * factor`. -/
def proportional_time_allocation (ds : List ℚ) (available_time : ℚ) : List ℚ :=
  let total_required := sum_task_durations ds
  let allocation_factor := available_time / total_required
  ds.map (fun d => d * allocation_factor)

/-- Modelled from the spec: `needs_proportional_allocation`, the gate called
by `schedule_all_user_tasks_sequential` (src/unnamed/part_011 lines 272-284)
whose body is not in the repository snapshot.  The spec states the allocator
is "triggered when a group of eligible tasks share a common deadline window
and their summed `estimated_duration` exceeds the time actually available
before that deadline" and that "if `total_required ≤ available`, no
adjustment occurs". -/
def needs_proportional_allocation (ds : List ℚ) (available_time : ℚ) : Bool :=
  decide (available_time < sum_task_durations ds)

/-- The deadline-group branch of `schedule_all_user_tasks_sequential`
(src/unnamed/part_011 lines 280-283): apply proportional allocation to the
group exactly when `needs_proportional_allocation` holds, otherwise leave
every duration unchanged. -/
def allocate_for_deadline_group (ds : List ℚ) (available_time : ℚ) : List ℚ :=
  if needs_proportional_allocation ds available_time then
    proportional_time_allocation ds available_time
  else ds

/-- A client-side task as consumed by `findDependencyChains`
(`src/client/src/pages/Dependencies.tsx`): an id and a list of dependency
ids. -/
structure CTask where
  id : ℕ
  dependencies : List ℕ
deriving DecidableEq, Repr

/-- The `taskMap.get` lookup of `findDependencyChains`
(`Dependencies.tsx` line 10): `new Map(tasks.map(t => [t.id, t]))` followed
by `taskMap.get(...)`. -/
def taskMapGet (tasks : List CTask) (i : ℕ) : Option CTask :=
  tasks.find? (fun t => t.id == i)

/-- The leaf computation of `findDependencyChains` (`Dependencies.tsx`
line 17): the tasks not depended on by any other task. -/
def chainLeaves (tasks : List CTask) : List CTask :=
  tasks.filter
    (fun t => ! tasks.any (fun other => other.dependencies.contains t.id))

/-- The inner `while (current)` walk of `findDependencyChains`
(`Dependencies.tsx` lines 21-31), made total with an explicit fuel:
`some chain` when the JS loop exits within `fuel` iterations, `none` when
the fuel runs out with the loop still running.  Each iteration unshifts the
current task onto the chain and then either follows the single dependency
(`current = taskMap.get(current.dependencies[0])`) or breaks. -/
def chainWalk (tasks : List CTask) :
    ℕ → Option CTask → List CTask → Option (List CTask)
  | _, none, chain => some chain
  | 0, some _, _ => none
  | fuel + 1, some cur, chain =>
      match cur.dependencies with
      | [d] => chainWalk tasks fuel (taskMapGet tasks d) (cur :: chain)
      | _ => some (cur :: chain)

/-- Cyclic fixture: task 1 depends on task 2. -/
def cycleTaskA : CTask :=
  ⟨1, [2]⟩

/-- Cyclic fixture: task 2 depends on task 1, closing a two-task loop. -/
def cycleTaskB : CTask :=
  ⟨2, [1]⟩

/-- Cyclic fixture: task 3 depends on task 2, so the loop is reachable from
the leaf task 3. -/
def cycleTaskC : CTask :=
  ⟨3, [2]⟩

/-- The task list whose dependency references contain a two-task cycle
reachable from a leaf. -/
def cycleTasks : List CTask :=
  [cycleTaskA, cycleTaskB, cycleTaskC]

/-- The fields of the client task read by the complete-task flow. -/
structure ClientTask where
  can_be_completed : Bool
  status : TStatus
deriving DecidableEq, Repr

/-- Outcome of `handleCompleteTask`: either the early return that shows a
destructive toast without issuing any update, or the
`updateTask(id, {status: completed})` call. -/
inductive CompleteOutcome where
  | rejectedWithToast
  | statusUpdateIssued
deriving DecidableEq, Repr

/-- Embedded from `handleCompleteTask` (`TaskDetail.tsx` lines 70-89):
`if (!task.can_be_completed) { toast({... variant: "destructive"}); return; }`
runs before `updateTask(task.id, { status: TaskStatus.COMPLETED })`. -/
def handleCompleteTask (t : ClientTask) : CompleteOutcome :=
  if t.can_be_completed = false then CompleteOutcome.rejectedWithToast
  else CompleteOutcome.statusUpdateIssued

/-- The task state after the complete action: unchanged on the rejected
path, status set to `completed` when the update is issued. -/
def completeTaskResult (t : ClientTask) : ClientTask :=
  match handleCompleteTask t with
  | CompleteOutcome.rejectedWithToast => t
  | CompleteOutcome.statusUpdateIssued => ⟨t.can_be_completed, TStatus.completed⟩

/-- Rendering state of the completion button in `TaskItem`
(`TaskList.tsx` lines 156-178, with the `onCompleteTask` callback
provided): not rendered for completed tasks, an active button when
`can_be_completed`, otherwise a button rendered with the `disabled`
attribute and the cursor-not-allowed title. -/
inductive CompleteButton where
  | hidden
  | enabledButton
  | disabledButton
deriving DecidableEq, Repr

/-- Embedded from `TaskItem` (`TaskList.tsx` lines 156-178). -/
def taskItemCompleteButton (t : ClientTask) : CompleteButton :=
  if t.status = TStatus.completed then CompleteButton.hidden
  else if t.can_be_completed then CompleteButton.enabledButton
  else CompleteButton.disabledButton

end TaskScheduler

namespace TaskScheduler

/-- Claim C1: for every task and current time, the urgency score equals
`deadline_weight * deadline_term + priority_weight * priority_term` with
`deadline_term = 1 / (1 + hours_until_deadline / 24)` (signed hours from
`now` to the deadline), `priority_term = priority / 5`, and the default
weights are 0.6 and 0.4. -/
theorem urgency_score_formula (dw pw : ℚ) (t : STask) (now : ℚ) :
    calculate_urgency_score dw pw t now
      = dw * (1 / (1 + (t.deadline - now) / 24)) + pw * ((t.priority : ℚ) / 5)
      ∧ default_deadline_weight = 6 / 10 ∧ default_priority_weight = 4 / 10 := by
  refine ⟨?_, rfl, rfl⟩
  unfold calculate_urgency_score
  ring

/-- Claim C2: a task with a dependency is eligible for scheduling iff the
dependency's status is `completed` or `overdue`; in particular an overdue
dependency never blocks scheduling. -/
theorem can_schedule_iff_completed_or_overdue (s : TStatus) :
    (can_schedule s = true ↔ s = TStatus.completed ∨ s = TStatus.overdue)
      ∧ can_schedule TStatus.overdue = true := by
  refine ⟨?_, rfl⟩
  cases s <;> simp [can_schedule]

/-- Claim C9: the weight pair starts at (0.6, 0.4), and after every slider
adjustment the untouched weight is set to one minus the adjusted one, so
`deadline_weight + priority_weight = 1` holds after every weight-changing
operation. -/
theorem weights_sum_invariant :
    initialWeights = ⟨6 / 10, 4 / 10⟩
      ∧ initialWeights.deadline_weight + initialWeights.priority_weight = 1
      ∧ ∀ (w : Weights) (op : WeightOp),
          (applyWeightOp w op).deadline_weight
            + (applyWeightOp w op).priority_weight = 1 := by
  refine ⟨rfl, by norm_num [initialWeights], ?_⟩
  intro w op
  cases op <;> simp [applyWeightOp]

/-- Claim C4 counterexample: a task 48 hours past its deadline with priority 1
gets urgency `1/(1 + (-48)/24) * 0.6 + (1/5) * 0.4 = -13/25`, which is
negative, so the urgency score does not lie in [0, 1]. -/
theorem urgency_outside_unit_interval_cex :
    calculate_urgency_score default_deadline_weight default_priority_weight
        ⟨-48, 1, 0⟩ 0 = -13 / 25
      ∧ ¬ (0 ≤ calculate_urgency_score default_deadline_weight
              default_priority_weight ⟨-48, 1, 0⟩ 0
            ∧ calculate_urgency_score default_deadline_weight
                default_priority_weight ⟨-48, 1, 0⟩ 0 ≤ 1) := by
  have hv : calculate_urgency_score default_deadline_weight
      default_priority_weight ⟨-48, 1, 0⟩ 0 = -13 / 25 := by
    norm_num [calculate_urgency_score, default_deadline_weight,
      default_priority_weight]
  refine ⟨hv, ?_⟩
  rw [hv]
  norm_num

/-- Claim C4 amended: for tasks whose deadline has not yet passed
(`hours_until_deadline ≥ 0`) and whose priority is in 1..5, the urgency score
with the default weights lies in [0, 1].  (Overdue tasks violate the bound:
the deadline term exceeds 1 for 0 < overdue < 24h and is negative beyond
24h overdue.) -/
theorem urgency_in_unit_interval_of_future_deadline (t : STask) (now : ℚ)
    (hp1 : 1 ≤ t.priority) (hp5 : t.priority ≤ 5)
    (hd : 0 ≤ t.deadline - now) :
    0 ≤ calculate_urgency_score default_deadline_weight
          default_priority_weight t now
      ∧ calculate_urgency_score default_deadline_weight
          default_priority_weight t now ≤ 1 := by
  have hp1Q : (1 : ℚ) ≤ (t.priority : ℚ) := by exact_mod_cast hp1
  have hp5Q : (t.priority : ℚ) ≤ 5 := by exact_mod_cast hp5
  have h1 : (1 : ℚ) ≤ 1 + (t.deadline - now) / 24 := by linarith
  have hpos : (0 : ℚ) < 1 + (t.deadline - now) / 24 := by linarith
  have hdt0 : (0 : ℚ) ≤ 1 / (1 + (t.deadline - now) / 24) := by positivity
  have hdt1 : 1 / (1 + (t.deadline - now) / 24) ≤ 1 := by
    rw [div_le_one hpos]
    exact h1
  constructor
  · show 0 ≤ 1 / (1 + (t.deadline - now) / 24) * (6 / 10)
        + (t.priority : ℚ) / 5 * (4 / 10)
    linarith
  · show 1 / (1 + (t.deadline - now) / 24) * (6 / 10)
        + (t.priority : ℚ) / 5 * (4 / 10) ≤ 1
    linarith

/-- Witness for the amended C4 bound at a concrete task: deadline 24 hours
away, priority 3. -/
theorem urgency_in_unit_interval_witness :
    0 ≤ calculate_urgency_score default_deadline_weight
          default_priority_weight ⟨24, 3, 0⟩ 0
      ∧ calculate_urgency_score default_deadline_weight
          default_priority_weight ⟨24, 3, 0⟩ 0 ≤ 1 :=
  urgency_in_unit_interval_of_future_deadline ⟨24, 3, 0⟩ 0
    (by decide) (by decide) (by norm_num)

/-- Claim C5 counterexample: two tasks with exactly equal urgency scores
(17/25 each), where the first has the strictly earlier deadline and the
strictly earlier creation order; the resolver still awards the slot to the
second task and bumps the first, so ties are not broken by earlier deadline
or creation order. -/
theorem conflict_tie_not_broken_by_deadline_cex :
    calculate_urgency_score default_deadline_weight default_priority_weight
        ⟨0, 1, 0⟩ 0
      = calculate_urgency_score default_deadline_weight
          default_priority_weight ⟨16, 4, 1⟩ 0
      ∧ (STask.mk 0 1 0).deadline < (STask.mk 16 4 1).deadline
      ∧ (STask.mk 0 1 0).created < (STask.mk 16 4 1).created
      ∧ resolve_time_conflict default_deadline_weight default_priority_weight
          0 ⟨0, 1, 0⟩ ⟨16, 4, 1⟩ = (⟨16, 4, 1⟩, ⟨0, 1, 0⟩) := by
  refine ⟨?_, by norm_num, by norm_num, ?_⟩
  · norm_num [calculate_urgency_score, default_deadline_weight,
      default_priority_weight]
  · show (if calculate_urgency_score default_deadline_weight
          default_priority_weight ⟨0, 1, 0⟩ 0
        > calculate_urgency_score default_deadline_weight
            default_priority_weight ⟨16, 4, 1⟩ 0
      then ((⟨0, 1, 0⟩ : STask), (⟨16, 4, 1⟩ : STask))
      else (⟨16, 4, 1⟩, ⟨0, 1, 0⟩)) = (⟨16, 4, 1⟩, ⟨0, 1, 0⟩)
    rw [if_neg]
    norm_num [calculate_urgency_score, default_deadline_weight,
      default_priority_weight]

/-- Claim C5 amended: the resolver awards the slot to the task with the
strictly higher urgency score and bumps the other; when the scores are equal
(or the first is lower) the second argument wins and the first is bumped —
the tie is decided by argument position, not by deadline or creation
order. -/
theorem resolve_time_conflict_by_urgency (dw pw now : ℚ) (t1 t2 : STask) :
    (calculate_urgency_score dw pw t2 now < calculate_urgency_score dw pw t1 now
        → resolve_time_conflict dw pw now t1 t2 = (t1, t2))
      ∧ (calculate_urgency_score dw pw t1 now
            ≤ calculate_urgency_score dw pw t2 now
        → resolve_time_conflict dw pw now t1 t2 = (t2, t1)) := by
  constructor
  · intro h
    show (if calculate_urgency_score dw pw t1 now
          > calculate_urgency_score dw pw t2 now
        then (t1, t2) else (t2, t1)) = (t1, t2)
    exact if_pos h
  · intro h
    show (if calculate_urgency_score dw pw t1 now
          > calculate_urgency_score dw pw t2 now
        then (t1, t2) else (t2, t1)) = (t2, t1)
    exact if_neg (not_lt.mpr h)

/-- Witness for the amended C5 rule: a strictly more urgent first task wins
the slot. -/
theorem resolve_time_conflict_by_urgency_witness :
    resolve_time_conflict default_deadline_weight default_priority_weight 0
        ⟨0, 5, 0⟩ ⟨48, 1, 1⟩ = (⟨0, 5, 0⟩, ⟨48, 1, 1⟩) :=
  (resolve_time_conflict_by_urgency default_deadline_weight
      default_priority_weight 0 ⟨0, 5, 0⟩ ⟨48, 1, 1⟩).1
    (by norm_num [calculate_urgency_score, default_deadline_weight,
      default_priority_weight])

/-- Claim C7 counterexample: at urgency 1/2 — which lies in (0.4, 0.6], so
the claim demands midday / 12:00 — the slot-search preference
(`find_optimal_start_time_with_metta`) picks hour 10, and indeed no urgency
ever maps to hour 12 there.  The symbolic MeTTa table would say "midday". -/
theorem preferred_hour_not_midday_cex :
    preferred_start_hour (1 / 2) = 10
      ∧ (4 / 10 : ℚ) < 1 / 2 ∧ (1 / 2 : ℚ) ≤ 6 / 10
      ∧ (10 : ℤ) ≠ 12
      ∧ optimal_time_slot (1 / 2) = "midday" := by
  refine ⟨?_, by norm_num, by norm_num, by decide,
    by norm_num [optimal_time_slot]⟩
  norm_num [preferred_start_hour]

/-- Claim C7 amended: the hour used for slot search is 9 iff urgency > 0.7,
10 iff 0.4 < urgency ≤ 0.7, and 14 iff urgency ≤ 0.4; hour 12 is never
chosen.  (Only the symbolic MeTTa table `optimal-time-slot` uses the
claimed 0.8/0.6/0.4 tiers.) -/
theorem preferred_start_hour_tiers (u : ℚ) :
    (preferred_start_hour u = 9 ↔ 7 / 10 < u)
      ∧ (preferred_start_hour u = 10 ↔ 4 / 10 < u ∧ u ≤ 7 / 10)
      ∧ (preferred_start_hour u = 14 ↔ u ≤ 4 / 10)
      ∧ preferred_start_hour u ≠ 12 := by
  unfold preferred_start_hour
  split_ifs with h1 h2 <;>
    refine ⟨?_, ?_, ?_, ?_⟩ <;>
      norm_num <;>
        first
          | linarith
          | (constructor <;> linarith)
          | (intro hx; linarith)

/-- Summing a list after scaling every entry scales the sum. -/
theorem list_sum_map_mul (ds : List ℚ) (c : ℚ) :
    (ds.map (fun d => d * c)).sum = ds.sum * c := by
  induction ds with
  | nil => simp
  | cons a l ih =>
      simp only [List.map_cons, List.sum_cons, ih]
      ring

/-- Claim C3: when a deadline group's total required duration exceeds the
available time, every member's effective duration is
`estimated_duration * (available / total_required)` and the effective
durations sum to `available`; when the total fits, every member keeps its
full estimated duration. -/
theorem proportional_allocation_fair (ds : List ℚ) (available : ℚ)
    (hA : 0 ≤ available) :
    (available < sum_task_durations ds
        → allocate_for_deadline_group ds available
              = ds.map (fun d => d * (available / sum_task_durations ds))
          ∧ (allocate_for_deadline_group ds available).sum = available)
      ∧ (sum_task_durations ds ≤ available
        → allocate_for_deadline_group ds available = ds) := by
  constructor
  · intro h
    have hT : 0 < sum_task_durations ds := lt_of_le_of_lt hA h
    have hgate : needs_proportional_allocation ds available = true := by
      unfold needs_proportional_allocation
      exact decide_eq_true h
    have heq : allocate_for_deadline_group ds available
        = ds.map (fun d => d * (available / sum_task_durations ds)) := by
      unfold allocate_for_deadline_group
      rw [hgate]
      rfl
    refine ⟨heq, ?_⟩
    rw [heq, list_sum_map_mul]
    show ds.sum * (available / sum_task_durations ds) = available
    unfold sum_task_durations
    unfold sum_task_durations at hT
    rw [mul_comm, div_mul_cancel₀ available (ne_of_gt hT)]
  · intro h
    have hgate : needs_proportional_allocation ds available = false := by
      unfold needs_proportional_allocation
      exact decide_eq_false (not_lt.mpr h)
    unfold allocate_for_deadline_group
    rw [hgate]
    rfl

/-- Witness for C3 at the spec's own example: three 5-hour tasks, 9 hours
available (factor 9/15), so each gets 3 hours and the sum is 9. -/
theorem proportional_allocation_fair_witness :
    allocate_for_deadline_group [5, 5, 5] 9
        = [5, 5, 5].map (fun d => d * (9 / sum_task_durations [5, 5, 5]))
      ∧ (allocate_for_deadline_group [5, 5, 5] 9).sum = 9 :=
  (proportional_allocation_fair [5, 5, 5] 9 (by norm_num)).1
    (by norm_num [sum_task_durations, List.sum_cons, List.sum_nil])

/-- Claim C6 counterexample: for a group of 2-hour and 3-hour tasks with
zero available time, the allocator still applies
`factor = available / total_required = 0/5` and shrinks both tasks to 0 —
not the full unshrunk estimated durations the claim promises; with
available `-5` the factor is negative and the durations are scaled to
`-2` and `-3`. -/
theorem allocation_nonpos_available_cex :
    allocate_for_deadline_group [2, 3] 0 = [0, 0]
      ∧ proportional_time_allocation [2, 3] (-5) = [-2, -3]
      ∧ allocate_for_deadline_group [2, 3] 0 ≠ [2, 3] := by
  have h1 : allocate_for_deadline_group [2, 3] 0 = [0, 0] := by
    norm_num [allocate_for_deadline_group, needs_proportional_allocation,
      proportional_time_allocation, sum_task_durations, List.sum_cons,
      List.sum_nil]
  refine ⟨h1, ?_, ?_⟩
  · norm_num [proportional_time_allocation, sum_task_durations,
      List.sum_cons, List.sum_nil]
  · rw [h1]
    intro hcon
    have := List.head_eq_of_cons_eq hcon
    norm_num at this

/-- Claim C6 amended: when the available time is ≤ 0 (and the group is
nonempty with positive durations), the allocator still evaluates
`factor = available / total_required` and scales every member by it, so
every effective duration is non-positive; there is no emergency-placement
path. -/
theorem allocation_nonpos_available_scales (ds : List ℚ) (available : ℚ)
    (hA : available ≤ 0) (hne : ds ≠ []) (hpos : ∀ d ∈ ds, 0 < d) :
    allocate_for_deadline_group ds available
        = ds.map (fun d => d * (available / sum_task_durations ds))
      ∧ ∀ x ∈ allocate_for_deadline_group ds available, x ≤ 0 := by
  have hT : 0 < sum_task_durations ds := List.sum_pos ds hpos hne
  have h : available < sum_task_durations ds := lt_of_le_of_lt hA hT
  have hgate : needs_proportional_allocation ds available = true := by
    unfold needs_proportional_allocation
    exact decide_eq_true h
  have heq : allocate_for_deadline_group ds available
      = ds.map (fun d => d * (available / sum_task_durations ds)) := by
    unfold allocate_for_deadline_group
    rw [hgate]
    rfl
  refine ⟨heq, ?_⟩
  intro x hx
  rw [heq] at hx
  obtain ⟨d, hd, rfl⟩ := List.mem_map.mp hx
  have hf : available / sum_task_durations ds ≤ 0 :=
    div_nonpos_iff.mpr (Or.inr ⟨hA, hT.le⟩)
  have hd0 : 0 < d := hpos d hd
  nlinarith

/-- Witness for the amended C6 behaviour on the concrete group
`[2, 3]` with zero available time. -/
theorem allocation_nonpos_available_scales_witness :
    allocate_for_deadline_group [2, 3] 0
        = [2, 3].map (fun d => d * (0 / sum_task_durations [2, 3]))
      ∧ ∀ x ∈ allocate_for_deadline_group [2, 3] 0, x ≤ 0 :=
  allocation_nonpos_available_scales [2, 3] 0 le_rfl (by simp)
    (by
      intro d hd
      rcases List.mem_cons.mp hd with rfl | hd
      · norm_num
      · rcases List.mem_cons.mp hd with rfl | hd
        · norm_num
        · cases hd)

/-- From either member of the two-task cycle, the chain walk of
`findDependencyChains` never finishes, whatever fuel it is given: each
step alternates between tasks 1 and 2. -/
theorem chainWalk_cycle_spins (n : ℕ) :
    (∀ c, chainWalk cycleTasks n (some cycleTaskA) c = none)
      ∧ (∀ c, chainWalk cycleTasks n (some cycleTaskB) c = none) := by
  induction n with
  | zero => exact ⟨fun _ => rfl, fun _ => rfl⟩
  | succ n ih =>
      constructor
      · intro c
        have hstep : chainWalk cycleTasks (n + 1) (some cycleTaskA) c
            = chainWalk cycleTasks n (some cycleTaskB) (cycleTaskA :: c) := rfl
        rw [hstep]
        exact ih.2 _
      · intro c
        have hstep : chainWalk cycleTasks (n + 1) (some cycleTaskB) c
            = chainWalk cycleTasks n (some cycleTaskA) (cycleTaskB :: c) := rfl
        rw [hstep]
        exact ih.1 _

/-- Claim C8: on the cyclic task list, task 3 is a leaf, so
`findDependencyChains` starts the backwards walk there — and that walk
never terminates, for any number of iterations: the `while (current)`
loop has no visited check, so a dependency cycle reachable from a leaf
spins forever instead of being flagged and excluded. -/
theorem dependency_walk_diverges_on_cycle :
    chainLeaves cycleTasks = [cycleTaskC]
      ∧ ∀ fuel, chainWalk cycleTasks fuel (some cycleTaskC) [] = none := by
  constructor
  · rfl
  · intro fuel
    cases fuel with
    | zero => rfl
    | succ n =>
        have hstep : chainWalk cycleTasks (n + 1) (some cycleTaskC) []
            = chainWalk cycleTasks n (some cycleTaskB) [cycleTaskC] := rfl
        rw [hstep]
        exact (chainWalk_cycle_spins n).2 _

/-- Claim C10: for a task that cannot be completed and is not already
completed, `handleCompleteTask` takes the early-return toast path before
any status update is issued, the task state is unchanged, and the task-list
completion button is rendered disabled. -/
theorem complete_task_rejected_no_change (t : ClientTask)
    (h1 : t.can_be_completed = false) (h2 : t.status ≠ TStatus.completed) :
    handleCompleteTask t = CompleteOutcome.rejectedWithToast
      ∧ completeTaskResult t = t
      ∧ taskItemCompleteButton t = CompleteButton.disabledButton := by
  have hh : handleCompleteTask t = CompleteOutcome.rejectedWithToast := by
    unfold handleCompleteTask
    rw [if_pos h1]
  refine ⟨hh, ?_, ?_⟩
  · unfold completeTaskResult
    rw [hh]
  · unfold taskItemCompleteButton
    rw [if_neg h2, if_neg (by rw [h1]; exact Bool.false_ne_true)]

/-- Witness for C10 at a concrete pending task that cannot be completed. -/
theorem complete_task_rejected_no_change_witness :
    handleCompleteTask ⟨false, TStatus.pending⟩
        = CompleteOutcome.rejectedWithToast
      ∧ completeTaskResult ⟨false, TStatus.pending⟩
        = ⟨false, TStatus.pending⟩
      ∧ taskItemCompleteButton ⟨false, TStatus.pending⟩
        = CompleteButton.disabledButton :=
  complete_task_rejected_no_change ⟨false, TStatus.pending⟩ rfl (by decide)

end TaskScheduler
